import Mathlib

/-!
Shallow embedding of the Room Access & Realtime Message Synchronization core
of a multi-room chat client (React/Supabase source).

The embedding models:
- the room catalog and its sorting/filtering (`fetchRooms`, `filterRooms`,
  from `RoomList.tsx` (`src/unnamed/part_000`): `fetchRooms`, the search
  effect);
- room creation (`createRoom`) together with the store's
  `max_users` CHECK constraint from the SQL migration;
- the join sequence (`joinRoom`): password trim check, password equality,
  existing-membership lookup, capacity count, insert — together with a trace
  of the store operations performed on the membership table;
- the message synchronizer (`fetchMessages` snapshot and the INSERT event
  handler of `Chat.tsx`);
- room settings update and the ordered cascading delete of
  `RoomSettings.tsx`.

Machine integers do not matter here (member counts and timestamps are
non-negative integers well below any overflow boundary in the source's
number domain), so counts and timestamps are modelled as `Nat`.
-/

namespace SBChat

/-- A row of the `rooms` table, as selected by the client
(fields of the `Room` interface in `RoomList.tsx`).
`created_at` is the timestamp as its epoch value (the source compares
timestamps via `new Date(x).getTime()`). -/
structure Room where
  id : String
  name : String
  owner_email : String
  created_at : Nat
  password_hash : String
  max_users : Nat
  owner_id : String
deriving DecidableEq

/-- A row of the `room_users` table (primary key `(room_id, user_id)`). -/
structure RoomUser where
  room_id : String
  user_id : String
deriving DecidableEq

/-- Message type tag: the `message_type` column, whose CHECK constraint
allows only the values text and image. -/
inductive MsgKind where
  | text
  | image
deriving DecidableEq

/-- A row of the `messages` table, as selected by `Chat.tsx`. -/
structure Message where
  id : String
  created_at : Nat
  content : String
  user_id : String
  user_email : String
  image_url : Option String
  message_type : MsgKind
  room_id : String
deriving DecidableEq

/-- Remote store operations performed by the client, recorded as a trace so
that "no membership is read or written" style properties are statable. -/
inductive StoreOp where
  | selectMembership (room_id user_id : String)
  | countMemberships (room_id : String)
  | insertMembership (room_id user_id : String)
  | insertRoom (r : Room)
  | deleteMessages (room_id : String)
  | deleteMemberships (room_id : String)
  | deleteRoom (room_id : String)
deriving DecidableEq

/-- Outcome of `joinRoom` (the toasts of the source, by error kind). -/
inductive JoinResult where
  | validationError (msg : String)
  | authorizationError (msg : String)
  | capacityError (msg : String)
  | success
deriving DecidableEq

def passwordRequiredMsg : String := "Room password is required"

def incorrectPasswordMsg : String := "Incorrect password"

def roomFullMsg : String := "Room is full. Please try another room."

/-- JavaScript's `String.prototype.trim`: strips leading and trailing
whitespace (the source guards with `!value.trim()`). -/
def jsTrim (s : String) : String :=
  ⟨((s.data.dropWhile Char.isWhitespace).reverse.dropWhile
    Char.isWhitespace).reverse⟩

/-- JavaScript's `String.prototype.toLowerCase` on the ASCII range. -/
def jsToLower (s : String) : String := ⟨s.data.map Char.toLower⟩

/-- The membership predicate used by the existing-membership query of the
source, which matches both the room id and the session user id. -/
def isMemberOf (rid uid : String) (m : RoomUser) : Bool :=
  m.room_id == rid && m.user_id == uid

/-- The rows counted by the capacity query: all membership rows matching
the room id. -/
def membersOf (rid : String) (ms : List RoomUser) : List RoomUser :=
  ms.filter (fun m => m.room_id == rid)

/-- Function `joinRoom` of `RoomList.tsx`: trim-validates the supplied password,
compares it to the stored credential, looks up an existing membership,
counts members against `max_users`, and finally inserts the membership row.
Returns the outcome, the new state of the `room_users` table, and the trace
of membership-table operations performed. -/
def joinRoom (room : Room) (password uid : String) (ms : List RoomUser) :
    JoinResult × List RoomUser × List StoreOp :=
  if jsTrim password = "" then
    (JoinResult.validationError passwordRequiredMsg, ms, [])
  else if password ≠ room.password_hash then
    (JoinResult.authorizationError incorrectPasswordMsg, ms, [])
  else if ms.any (isMemberOf room.id uid) then
    (JoinResult.success, ms, [StoreOp.selectMembership room.id uid])
  else if room.max_users ≤ (membersOf room.id ms).length then
    (JoinResult.capacityError roomFullMsg, ms,
      [StoreOp.selectMembership room.id uid, StoreOp.countMemberships room.id])
  else
    (JoinResult.success, ms ++ [⟨room.id, uid⟩],
      [StoreOp.selectMembership room.id uid, StoreOp.countMemberships room.id,
        StoreOp.insertMembership room.id uid])

/-- Outcome of `createRoom`. -/
inductive CreateResult where
  | validationError (msg : String)
  | created (id : String)
  | remoteError (msg : String)
deriving DecidableEq

def roomsCheckViolationMsg : String :=
  "new row violates check constraint on rooms.max_users"

/-- The CHECK constraint on `rooms.max_users` from the migration
`20250410073917_round_jungle.sql`: `max_users > 0 AND max_users <= 100`. -/
def maxUsersCheck (n : Nat) : Prop := 0 < n ∧ n ≤ 100

instance (n : Nat) : Decidable (maxUsersCheck n) := by
  unfold maxUsersCheck
  infer_instance

/-- The row submitted by `createRoom` to the `rooms` insert (id and
creation timestamp are store-generated, passed here as `newId`/`now`). -/
def newRoomRow (name password : String) (maxUsers : Nat)
    (ownerId ownerEmail newId : String) (now : Nat) : Room :=
  ⟨newId, name, ownerEmail, now, password, maxUsers, ownerId⟩

/-- Function `createRoom` of `RoomList.tsx`: trim-validates the password, then
attempts the insert into `rooms`; the store applies the `max_users` CHECK
constraint and either stores the row or rejects the write.
Returns the outcome, the new state of the `rooms` table, and the trace of
store writes attempted. -/
def createRoom (name password : String) (maxUsers : Nat)
    (ownerId ownerEmail : String) (store : List Room) (newId : String)
    (now : Nat) : CreateResult × List Room × List StoreOp :=
  if jsTrim password = "" then
    (CreateResult.validationError passwordRequiredMsg, store, [])
  else if maxUsersCheck maxUsers then
    (CreateResult.created newId,
      store ++ [newRoomRow name password maxUsers ownerId ownerEmail newId now],
      [StoreOp.insertRoom (newRoomRow name password maxUsers ownerId ownerEmail newId now)])
  else
    (CreateResult.remoteError roomsCheckViolationMsg, store,
      [StoreOp.insertRoom (newRoomRow name password maxUsers ownerId ownerEmail newId now)])

/-- The comparator of the room sort in `RoomList.tsx`, as the total preorder
`compare a b ≤ 0`: rooms in the same ownership group (both or neither owned
by the session user) are ordered by creation time descending, and an owned
room sorts before a non-owned one. -/
def roomLe (s : String) (a b : Room) : Prop :=
  if (a.owner_id = s) ↔ (b.owner_id = s) then b.created_at ≤ a.created_at
  else a.owner_id = s

instance (s : String) : DecidableRel (roomLe s) := fun a b => by
  unfold roomLe
  infer_instance

instance (s : String) : IsTotal Room (roomLe s) := by
  constructor
  intro a b
  by_cases ha : a.owner_id = s <;> by_cases hb : b.owner_id = s <;>
    simp [roomLe, ha, hb] <;> omega

instance (s : String) : IsTrans Room (roomLe s) := by
  constructor
  intro a b c hab hbc
  by_cases ha : a.owner_id = s <;> by_cases hb : b.owner_id = s <;>
    by_cases hc : c.owner_id = s <;> simp_all [roomLe] <;> omega

/-- The store-side ordering of the catalog query: order by `created_at`
descending. -/
def createdDesc (a b : Room) : Prop := b.created_at ≤ a.created_at

instance : DecidableRel createdDesc := fun a b => Nat.decLe b.created_at a.created_at

def storeOrderDesc (l : List Room) : List Room := List.insertionSort createdDesc l

/-- The client-side sort applied by `fetchRooms` and the search effect
(a stable sort under the `roomLe` comparator). -/
def sortRooms (s : String) (l : List Room) : List Room :=
  List.insertionSort (roomLe s) l

/-- Function `fetchRooms` of `RoomList.tsx`: queries all rooms ordered by
`created_at` descending, then re-sorts with the ownership-group comparator. -/
def fetchRooms (s : String) (storeRooms : List Room) : List Room :=
  sortRooms s (storeOrderDesc storeRooms)

/-- Helper for JavaScript's `h.includes(q)`: `startsWithSeq h q` holds when
`q` is an initial run of `h`. -/
def startsWithSeq : List Char → List Char → Bool
  | _, [] => true
  | [], _ :: _ => false
  | a :: as, b :: bs => a == b && startsWithSeq as bs

def includesSeq : List Char → List Char → Bool
  | [], q => q.isEmpty
  | a :: t, q => startsWithSeq (a :: t) q || includesSeq t q

/-- The search predicate of the filter effect in `RoomList.tsx`:
`room.id.toLowerCase().includes(query) || room.name.toLowerCase().includes(query)`
where `query` is the lowercased search string. -/
def roomMatches (query : String) (r : Room) : Bool :=
  includesSeq (jsToLower r.id).toList query.toList ||
    includesSeq (jsToLower r.name).toList query.toList

/-- The search effect of `RoomList.tsx`: a query that trims to empty yields
the full sorted catalog; otherwise the catalog is filtered by the
case-insensitive substring match and re-sorted the same way. -/
def filterRooms (s query : String) (rooms : List Room) : List Room :=
  if jsTrim query = "" then sortRooms s rooms
  else sortRooms s (rooms.filter (roomMatches (jsToLower query)))

/-- The snapshot ordering of the message fetch in `Chat.tsx`: order by
`created_at` ascending. -/
def messageLe (a b : Message) : Prop := a.created_at ≤ b.created_at

instance : DecidableRel messageLe := fun a b => Nat.decLe a.created_at b.created_at

instance : IsTotal Message messageLe :=
  ⟨fun a b => Nat.le_total a.created_at b.created_at⟩

instance : IsTrans Message messageLe :=
  ⟨fun _ _ _ hab hbc => Nat.le_trans hab hbc⟩

/-- The snapshot load of `Chat.tsx`: all messages of the room, ordered by
creation timestamp ascending (the order-by executed by the store). -/
def fetchMessages (rid : String) (remote : List Message) : List Message :=
  List.insertionSort messageLe (remote.filter (fun m => m.room_id == rid))

/-- The INSERT branch of the realtime event handler in `Chat.tsx`:
`setMessages(current => [...current, payload.new])` — an unconditional
append, with no de-duplication guard. -/
def handleInsertEvent (cur : List Message) (m : Message) : List Message :=
  cur ++ [m]

/-- The whole remote store, for the cascading delete. -/
structure Store where
  rooms : List Room
  room_users : List RoomUser
  messages : List Message
deriving DecidableEq

/-- Function `handleDeleteRoom` of `RoomSettings.tsx`: deletes the room's messages,
then its `room_users` rows, then the room row, in that order (the trace
records the order of the three deletes). -/
def handleDeleteRoom (rid : String) (st : Store) : Store × List StoreOp :=
  (⟨st.rooms.filter (fun r => !(r.id == rid)),
      st.room_users.filter (fun m => !(m.room_id == rid)),
      st.messages.filter (fun m => !(m.room_id == rid))⟩,
    [StoreOp.deleteMessages rid, StoreOp.deleteMemberships rid,
      StoreOp.deleteRoom rid])

/-- The delete flow gated by the confirmation input of `RoomSettings.tsx`:
the submit button is disabled unless the typed token equals the fixed
sentinel word DELETE (the input also carries a pattern attribute requiring
it), so the handler runs only for that exact token. -/
def deleteRoom (token rid : String) (st : Store) : Store × List StoreOp :=
  if token = "DELETE" then handleDeleteRoom rid st else (st, [])

/-- The update patch built by `handleUpdateSettings` of `RoomSettings.tsx`:
always carries `max_users`; carries `password_hash` only when the new
password is truthy (non-empty). -/
structure RoomPatch where
  password_hash : Option String
  max_users : Nat
deriving DecidableEq

def buildPatch (newPassword : String) (maxUsers : Nat) : RoomPatch :=
  ⟨if newPassword = "" then none else some newPassword, maxUsers⟩

/-- Application of an update patch to a `rooms` row: fields absent from the
patch keep their stored value. -/
def applyPatch (p : RoomPatch) (r : Room) : Room :=
  ⟨r.id, r.name, r.owner_email, r.created_at,
    p.password_hash.getD r.password_hash, p.max_users, r.owner_id⟩

/-- Function `handleUpdateSettings` of `RoomSettings.tsx`: updates the row whose id
matches the room id, applying the patch to that row alone. -/
def handleUpdateSettings (newPassword : String) (maxUsers : Nat)
    (rid : String) (rooms : List Room) : List Room :=
  rooms.map (fun r =>
    if r.id = rid then applyPatch (buildPatch newPassword maxUsers) r else r)

/-- A concrete room used in counterexamples and witnesses. -/
def roomA : Room := ⟨"a", "b", "owner@x", 0, "pw", 10, "u"⟩

/-- A concrete message used in counterexamples and witnesses. -/
def msgA : Message := ⟨"m1", 1, "hi", "u1", "e1", none, MsgKind.text, "r1"⟩

/-- A concrete membership row used in witnesses. -/
def memA : RoomUser := ⟨"r1", "u1"⟩

/-- A concrete store used in witnesses. -/
def stA : Store := ⟨[roomA], [memA], [msgA]⟩

/-- The two-group catalog ordering stated by the spec, as a pairwise
property: along the list, a room owned by the session user never follows a
non-owned one, and within the same ownership group creation timestamps are
descending. -/
def roomOrdered (s : String) (l : List Room) : Prop :=
  List.Pairwise (fun a b => (b.owner_id = s → a.owner_id = s) ∧
    ((a.owner_id = s ↔ b.owner_id = s) → b.created_at ≤ a.created_at)) l

/-- Unfolding of `joinRoom` in the correct-password case where the caller
already holds a membership: immediate success, no state change, and the only
membership-table operation is the existence lookup. -/
theorem joinRoom_already_member (room : Room) (p uid : String)
    (ms : List RoomUser) (hp : p = room.password_hash) (ht : jsTrim p ≠ "")
    (hm : ms.any (isMemberOf room.id uid) = true) :
    joinRoom room p uid ms =
      (JoinResult.success, ms, [StoreOp.selectMembership room.id uid]) := by
  unfold joinRoom
  rw [if_neg ht, if_neg (fun hne => hne hp), if_pos hm]

/-- Unfolding of `joinRoom` in the correct-password, non-member, free-space
case: one membership row is appended and the trace is lookup, count, insert. -/
theorem joinRoom_fresh_join (room : Room) (p uid : String)
    (ms : List RoomUser) (hp : p = room.password_hash) (ht : jsTrim p ≠ "")
    (hm : ms.any (isMemberOf room.id uid) = false)
    (hc : (membersOf room.id ms).length < room.max_users) :
    joinRoom room p uid ms =
      (JoinResult.success, ms ++ [⟨room.id, uid⟩],
        [StoreOp.selectMembership room.id uid,
          StoreOp.countMemberships room.id,
          StoreOp.insertMembership room.id uid]) := by
  unfold joinRoom
  rw [if_neg ht, if_neg (fun hne => hne hp), if_neg (by simp [hm]),
    if_neg (Nat.not_le.mpr hc)]

/-- C1 (counterexample): the claim says an empty supplied password fails with
`AuthorizationError` ("incorrect password"); on the code an empty password is
caught by the trim validation first and fails with the missing-password
validation message instead. -/
theorem C1_counterexample :
    (joinRoom roomA "" "u2" []).1 = JoinResult.validationError passwordRequiredMsg ∧
    (joinRoom roomA "" "u2" []).1 ≠ JoinResult.authorizationError incorrectPasswordMsg := by
  constructor
  · rfl
  · decide

/-- C1 (amended): for every supplied password that is empty or differs from
the room's stored credential, `joinRoom` fails — with the missing-password
validation message when the password trims to empty, and with
`AuthorizationError` ("incorrect password") otherwise — and performs no
membership-table read or write: the membership state is unchanged and the
trace of membership operations is empty, regardless of capacity state. -/
theorem C1_password_gate (room : Room) (p uid : String) (ms : List RoomUser)
    (h : p = "" ∨ p ≠ room.password_hash) :
    (jsTrim p = "" →
      (joinRoom room p uid ms).1 = JoinResult.validationError passwordRequiredMsg) ∧
    (jsTrim p ≠ "" →
      (joinRoom room p uid ms).1 = JoinResult.authorizationError incorrectPasswordMsg) ∧
    (joinRoom room p uid ms).2.1 = ms ∧ (joinRoom room p uid ms).2.2 = [] := by
  by_cases htr : jsTrim p = ""
  · refine ⟨fun _ => ?_, fun hne => absurd htr hne, ?_, ?_⟩ <;>
      simp [joinRoom, htr]
  · have hne : p ≠ room.password_hash := by
      rcases h with h | h
      · exact absurd (by rw [h]; decide) htr
      · exact h
    refine ⟨fun hyes => absurd hyes htr, fun _ => ?_, ?_, ?_⟩ <;>
      simp [joinRoom, htr, hne]

/-- C1 (witness): the gate theorem applied at a concrete wrong, non-empty
password. -/
theorem C1_password_gate_witness :
    (jsTrim " x" ≠ "" →
      (joinRoom roomA " x" "u2" [memA]).1 =
        JoinResult.authorizationError incorrectPasswordMsg) ∧
    (joinRoom roomA " x" "u2" [memA]).2.1 = [memA] ∧
    (joinRoom roomA " x" "u2" [memA]).2.2 = [] := by
  have h := C1_password_gate roomA " x" "u2" [memA] (Or.inr (by decide))
  exact ⟨h.2.1, h.2.2⟩

/-- C10: a supplied password that is non-empty but whitespace-only is
rejected by the trim validation before the credential comparison and before
any membership read or write — for every room, including one whose stored
credential is exactly that whitespace string: the outcome is the
missing-password validation error, the membership state is unchanged, and no
membership-table operation is performed. -/
theorem C10_whitespace_password (room : Room) (p uid : String)
    (ms : List RoomUser) (_hne : p ≠ "") (htr : jsTrim p = "") :
    joinRoom room p uid ms =
      (JoinResult.validationError passwordRequiredMsg, ms, []) := by
  unfold joinRoom
  rw [if_pos htr]

/-- C10 (witness): a single-space password against a room whose stored
credential is that very space. -/
theorem C10_whitespace_password_witness :
    joinRoom ⟨"a", "b", "owner@x", 0, " ", 10, "u"⟩ " " "u2" [memA] =
      (JoinResult.validationError passwordRequiredMsg, [memA], []) :=
  C10_whitespace_password ⟨"a", "b", "owner@x", 0, " ", 10, "u"⟩ " " "u2"
    [memA] (by decide) (by decide)

/-- C2: join is idempotent. An existing member supplying the correct
password re-enters immediately: no second row is appended, the capacity
count is not performed (the trace holds only the existence lookup), so this
works even when the room is at or over capacity; and a fresh join followed
by a re-join leaves exactly one membership row for the (room, user) pair. -/
theorem C2_join_idempotent :
    (∀ (room : Room) (p uid : String) (ms : List RoomUser),
      p = room.password_hash → jsTrim p ≠ "" →
      ms.any (isMemberOf room.id uid) = true →
      joinRoom room p uid ms =
        (JoinResult.success, ms, [StoreOp.selectMembership room.id uid])) ∧
    (∀ (room : Room) (p uid : String) (ms : List RoomUser),
      p = room.password_hash → jsTrim p ≠ "" →
      ms.filter (isMemberOf room.id uid) = [] →
      (membersOf room.id ms).length < room.max_users →
      ((joinRoom room p uid ((joinRoom room p uid ms).2.1)).2.1.filter
        (isMemberOf room.id uid)).length = 1) := by
  constructor
  · exact joinRoom_already_member
  · intro room p uid ms hp ht hfil hc
    have hany : ms.any (isMemberOf room.id uid) = false := by
      rw [List.any_eq_false]
      intro m hm
      exact (List.filter_eq_nil_iff.mp hfil) m hm
    rw [joinRoom_fresh_join room p uid ms hp ht hany hc]
    have hself : isMemberOf room.id uid ⟨room.id, uid⟩ = true := by
      simp [isMemberOf]
    have hany2 : (ms ++ [(⟨room.id, uid⟩ : RoomUser)]).any
        (isMemberOf room.id uid) = true := by
      rw [List.any_eq_true]
      exact ⟨⟨room.id, uid⟩, by simp, hself⟩
    rw [joinRoom_already_member room p uid _ hp ht hany2]
    simp [List.filter_append, hfil, hself]

/-- C2 (witness): both parts applied to the concrete room `roomA`: re-join
of an existing member, and a fresh join followed by a re-join. -/
theorem C2_join_idempotent_witness :
    joinRoom roomA "pw" "u1" [⟨"a", "u1"⟩] =
      (JoinResult.success, [⟨"a", "u1"⟩], [StoreOp.selectMembership "a" "u1"]) ∧
    ((joinRoom roomA "pw" "u1" ((joinRoom roomA "pw" "u1" []).2.1)).2.1.filter
      (isMemberOf "a" "u1")).length = 1 :=
  ⟨C2_join_idempotent.1 roomA "pw" "u1" [⟨"a", "u1"⟩] rfl (by decide) (by decide),
    C2_join_idempotent.2 roomA "pw" "u1" [] rfl (by decide) (by decide) (by decide)⟩

/-- C3: for a non-member supplying the correct password, `joinRoom` fails
with `CapacityError` ("room is full") and appends no membership row when the
current member count is at or above `max_users`, and otherwise succeeds
appending exactly one (room id, user id) row. -/
theorem C3_capacity_gate :
    (∀ (room : Room) (p uid : String) (ms : List RoomUser),
      p = room.password_hash → jsTrim p ≠ "" →
      ms.any (isMemberOf room.id uid) = false →
      room.max_users ≤ (membersOf room.id ms).length →
      joinRoom room p uid ms =
        (JoinResult.capacityError roomFullMsg, ms,
          [StoreOp.selectMembership room.id uid,
            StoreOp.countMemberships room.id])) ∧
    (∀ (room : Room) (p uid : String) (ms : List RoomUser),
      p = room.password_hash → jsTrim p ≠ "" →
      ms.any (isMemberOf room.id uid) = false →
      (membersOf room.id ms).length < room.max_users →
      joinRoom room p uid ms =
        (JoinResult.success, ms ++ [⟨room.id, uid⟩],
          [StoreOp.selectMembership room.id uid,
            StoreOp.countMemberships room.id,
            StoreOp.insertMembership room.id uid])) := by
  constructor
  · intro room p uid ms hp ht hm hfull
    unfold joinRoom
    rw [if_neg ht, if_neg (fun hne => hne hp), if_neg (by simp [hm]),
      if_pos hfull]
  · exact joinRoom_fresh_join

/-- C3 (witness): a full one-seat room rejects a stranger, and the same room
with a free seat admits them with exactly one new row. -/
theorem C3_capacity_gate_witness :
    joinRoom ⟨"a", "b", "owner@x", 0, "pw", 1, "u"⟩ "pw" "u2" [⟨"a", "u9"⟩] =
      (JoinResult.capacityError roomFullMsg, [⟨"a", "u9"⟩],
        [StoreOp.selectMembership "a" "u2", StoreOp.countMemberships "a"]) ∧
    joinRoom ⟨"a", "b", "owner@x", 0, "pw", 1, "u"⟩ "pw" "u2" [] =
      (JoinResult.success, [⟨"a", "u2"⟩],
        [StoreOp.selectMembership "a" "u2", StoreOp.countMemberships "a",
          StoreOp.insertMembership "a" "u2"]) :=
  ⟨C3_capacity_gate.1 ⟨"a", "b", "owner@x", 0, "pw", 1, "u"⟩ "pw" "u2"
      [⟨"a", "u9"⟩] rfl (by decide) (by decide) (by decide),
    C3_capacity_gate.2 ⟨"a", "b", "owner@x", 0, "pw", 1, "u"⟩ "pw" "u2"
      [] rfl (by decide) (by decide) (by decide)⟩

/-- A list sorted by the room comparator satisfies the two-group catalog
ordering. -/
theorem sorted_roomOrdered {s : String} {l : List Room}
    (h : List.Sorted (roomLe s) l) : roomOrdered s l := by
  refine h.imp ?_
  intro a b hab
  unfold roomLe at hab
  by_cases hiff : (a.owner_id = s) ↔ (b.owner_id = s)
  · rw [if_pos hiff] at hab
    exact ⟨fun hb => hiff.mpr hb, fun _ => hab⟩
  · rw [if_neg hiff] at hab
    exact ⟨fun _ => hab, fun h2 => absurd h2 hiff⟩

/-- C4 (counterexample): the claim says an insert event whose message id is
already present leaves the log unchanged; the code's INSERT handler appends
unconditionally, so redelivering the snapshot's own row duplicates it. -/
theorem C4_counterexample :
    handleInsertEvent [msgA] msgA ≠ [msgA] ∧
    ((handleInsertEvent [msgA] msgA).filter (fun m => m.id == msgA.id)).length = 2 := by
  decide

/-- C4 (amended): after the snapshot load the local log is ordered ascending
by creation timestamp; but the INSERT event handler appends unconditionally
(there is no id-membership guard), so processing an event whose message id
is already present in the log appends a duplicate: the number of log entries
bearing that id grows by one. -/
theorem C4_sync_log (rid : String) (remote cur : List Message) (m : Message) :
    List.Sorted messageLe (fetchMessages rid remote) ∧
    (m.id ∈ cur.map Message.id →
      ((handleInsertEvent cur m).filter (fun x => x.id == m.id)).length =
        (cur.filter (fun x => x.id == m.id)).length + 1) := by
  constructor
  · exact List.sorted_insertionSort messageLe _
  · intro _
    simp [handleInsertEvent, List.filter_append]

/-- C4 (witness): the amended theorem at a concrete one-message log with the
same message redelivered. -/
theorem C4_sync_log_witness :
    List.Sorted messageLe (fetchMessages "r1" [msgA]) ∧
    ((handleInsertEvent [msgA] msgA).filter (fun x => x.id == msgA.id)).length =
      (([msgA] : List Message).filter (fun x => x.id == msgA.id)).length + 1 :=
  ⟨(C4_sync_log "r1" [msgA] [msgA] msgA).1,
    (C4_sync_log "r1" [msgA] [msgA] msgA).2 (by decide)⟩

/-- C5 (counterexample): the claim says `maxUsers = 0` is rejected before any
store write is attempted; on the code `createRoom` performs no client-side
`maxUsers` check, so the insert is attempted (trace non-empty) and the
rejection comes from the store's CHECK constraint. -/
theorem C5_counterexample :
    (createRoom "n" "pw" 0 "u" "e" [] "rid" 7).1 =
      CreateResult.remoteError roomsCheckViolationMsg ∧
    (createRoom "n" "pw" 0 "u" "e" [] "rid" 7).2.2 ≠ [] := by
  decide

/-- C5 (amended): for every create call with a non-blank password,
`maxUsers = 0` or `maxUsers = 101` is rejected — by the store's
`max_users` CHECK constraint at insert time, after the write is attempted —
and no room row is stored, while `maxUsers = 1` and `maxUsers = 100`
succeed; the invariant that every stored room satisfies
`1 ≤ max_users ≤ 100` is preserved. -/
theorem C5_max_users_bounds (name p : String) (mu : Nat) (oid oe : String)
    (store : List Room) (nid : String) (now : Nat) (hp : jsTrim p ≠ "") :
    ((mu = 0 ∨ mu = 101) →
      (createRoom name p mu oid oe store nid now).1 =
        CreateResult.remoteError roomsCheckViolationMsg ∧
      (createRoom name p mu oid oe store nid now).2.1 = store) ∧
    ((mu = 1 ∨ mu = 100) →
      (createRoom name p mu oid oe store nid now).1 = CreateResult.created nid) ∧
    ((∀ r ∈ store, 1 ≤ r.max_users ∧ r.max_users ≤ 100) →
      ∀ r ∈ (createRoom name p mu oid oe store nid now).2.1,
        1 ≤ r.max_users ∧ r.max_users ≤ 100) := by
  refine ⟨?_, ?_, ?_⟩
  · intro hmu
    have hchk : ¬ maxUsersCheck mu := by
      rcases hmu with h | h <;> subst h <;> decide
    unfold createRoom
    rw [if_neg hp, if_neg hchk]
    exact ⟨rfl, rfl⟩
  · intro hmu
    have hchk : maxUsersCheck mu := by
      rcases hmu with h | h <;> subst h <;> decide
    unfold createRoom
    rw [if_neg hp, if_pos hchk]
  · intro hinv r hr
    unfold createRoom at hr
    rw [if_neg hp] at hr
    by_cases hchk : maxUsersCheck mu
    · rw [if_pos hchk] at hr
      rcases List.mem_append.mp hr with h | h
      · exact hinv r h
      · rw [List.mem_singleton.mp h]
        exact ⟨hchk.1, hchk.2⟩
    · rw [if_neg hchk] at hr
      exact hinv r hr

/-- C5 (witness): the amended theorem at `maxUsers` 0, 1 and 101. -/
theorem C5_max_users_bounds_witness :
    ((createRoom "n" "pw" 0 "u" "e" [] "rid" 7).1 =
        CreateResult.remoteError roomsCheckViolationMsg ∧
      (createRoom "n" "pw" 0 "u" "e" [] "rid" 7).2.1 = []) ∧
    (createRoom "n" "pw" 1 "u" "e" [] "rid" 7).1 = CreateResult.created "rid" ∧
    (∀ r ∈ (createRoom "n" "pw" 101 "u" "e" [roomA] "rid" 7).2.1,
      1 ≤ r.max_users ∧ r.max_users ≤ 100) :=
  ⟨(C5_max_users_bounds "n" "pw" 0 "u" "e" [] "rid" 7 (by decide)).1 (Or.inl rfl),
    (C5_max_users_bounds "n" "pw" 1 "u" "e" [] "rid" 7 (by decide)).2.1 (Or.inl rfl),
    (C5_max_users_bounds "n" "pw" 101 "u" "e" [roomA] "rid" 7 (by decide)).2.2
      (by decide)⟩

/-- C6: for every catalog, the listed result is a permutation of the catalog
that puts the caller's owned rooms first as a group and orders each
ownership group by creation timestamp descending. -/
theorem C6_list_ordering (s : String) (rows : List Room) :
    List.Perm (fetchRooms s rows) rows ∧ roomOrdered s (fetchRooms s rows) := by
  constructor
  · exact (List.perm_insertionSort (roomLe s) _).trans
      (List.perm_insertionSort createdDesc rows)
  · exact sorted_roomOrdered (List.sorted_insertionSort (roomLe s) _)

/-- C7 (counterexample): the claim says every non-empty query is matched as
a substring filter; the code branches on the trimmed query, so the non-empty
whitespace query returns a room that matches neither by id nor by name. -/
theorem C7_counterexample :
    (" " : String) ≠ "" ∧
    roomMatches (jsToLower " ") roomA = false ∧
    filterRooms "u" " " [roomA] = [roomA] := by
  decide

/-- C7 (amended): a query that trims to empty is the identity on the fully
ordered catalog (filtering the listed catalog returns it unchanged, and on
any catalog it returns the same two-group ordering); a query with
non-whitespace content returns exactly the rooms whose id or name contains
the lowercased query as a substring, re-ordered by the same two-group
ordering. -/
theorem C7_filter_behavior (s q : String) (rows rooms : List Room) :
    (jsTrim q = "" →
      filterRooms s q (fetchRooms s rows) = fetchRooms s rows ∧
      filterRooms s q rooms = sortRooms s rooms) ∧
    (jsTrim q ≠ "" →
      List.Perm (filterRooms s q rooms)
        (rooms.filter (roomMatches (jsToLower q))) ∧
      roomOrdered s (filterRooms s q rooms)) := by
  constructor
  · intro hq
    constructor
    · unfold filterRooms
      rw [if_pos hq]
      exact (List.sorted_insertionSort (roomLe s) (storeOrderDesc rows)).insertionSort_eq
    · unfold filterRooms
      rw [if_pos hq]
  · intro hq
    unfold filterRooms
    rw [if_neg hq]
    exact ⟨List.perm_insertionSort _ _,
      sorted_roomOrdered (List.sorted_insertionSort _ _)⟩

/-- C7 (witness): the filter theorem at the empty query and at a concrete
non-empty query. -/
theorem C7_filter_behavior_witness :
    (filterRooms "u" "" (fetchRooms "u" [roomA]) = fetchRooms "u" [roomA] ∧
      filterRooms "u" "" [roomA] = sortRooms "u" [roomA]) ∧
    (List.Perm (filterRooms "u" "x" [roomA])
        ([roomA].filter (roomMatches (jsToLower "x"))) ∧
      roomOrdered "u" (filterRooms "u" "x" [roomA])) :=
  ⟨(C7_filter_behavior "u" "" [roomA] [roomA]).1 (by decide),
    (C7_filter_behavior "u" "x" [roomA] [roomA]).2 (by decide)⟩

/-- C8: the delete flow proceeds only when the confirmation token equals the
sentinel string, and then performs the three deletes in dependency order —
messages, then memberships, then the room row — after which the room appears
in no listed catalog and no message or membership row references its id. -/
theorem C8_delete_room (token rid s : String) (st : Store) :
    (token ≠ "DELETE" → deleteRoom token rid st = (st, [])) ∧
    (token = "DELETE" →
      (deleteRoom token rid st).2 =
        [StoreOp.deleteMessages rid, StoreOp.deleteMemberships rid,
          StoreOp.deleteRoom rid] ∧
      (∀ r ∈ fetchRooms s (deleteRoom token rid st).1.rooms, r.id ≠ rid) ∧
      (∀ m ∈ (deleteRoom token rid st).1.messages, m.room_id ≠ rid) ∧
      (∀ m ∈ (deleteRoom token rid st).1.room_users, m.room_id ≠ rid)) := by
  constructor
  · intro h
    unfold deleteRoom
    rw [if_neg h]
  · intro h
    subst h
    unfold deleteRoom handleDeleteRoom
    rw [if_pos rfl]
    refine ⟨rfl, ?_, ?_, ?_⟩
    · intro r hr
      simp only [fetchRooms, sortRooms, storeOrderDesc, List.mem_insertionSort,
        List.mem_filter, Bool.not_eq_true', beq_eq_false_iff_ne, ne_eq] at hr
      exact hr.2
    · intro m hm
      simp only [List.mem_filter, Bool.not_eq_true', beq_eq_false_iff_ne,
        ne_eq] at hm
      exact hm.2
    · intro m hm
      simp only [List.mem_filter, Bool.not_eq_true', beq_eq_false_iff_ne,
        ne_eq] at hm
      exact hm.2

/-- C8 (witness): a wrong token leaves the store untouched with no deletes;
the sentinel token on a concrete store yields the ordered trace and no
surviving reference to the room id. -/
theorem C8_delete_room_witness :
    deleteRoom "nope" "r1" stA = (stA, []) ∧
    ((deleteRoom "DELETE" "r1" stA).2 =
      [StoreOp.deleteMessages "r1", StoreOp.deleteMemberships "r1",
        StoreOp.deleteRoom "r1"] ∧
    (∀ r ∈ fetchRooms "u" (deleteRoom "DELETE" "r1" stA).1.rooms, r.id ≠ "r1") ∧
    (∀ m ∈ (deleteRoom "DELETE" "r1" stA).1.messages, m.room_id ≠ "r1") ∧
    (∀ m ∈ (deleteRoom "DELETE" "r1" stA).1.room_users, m.room_id ≠ "r1")) :=
  ⟨(C8_delete_room "nope" "r1" "u" stA).1 (by decide),
    (C8_delete_room "DELETE" "r1" "u" stA).2 rfl⟩

/-- C9: when the new password is absent or empty, the submitted patch
carries no `password_hash` (only `max_users`) and every room's stored
credential is unchanged by the update; and for every update call, the
fields other than `password_hash` and `max_users` — id, name, owner
identity, owner label, creation timestamp — are unchanged. -/
theorem C9_update_frame (np : String) (mu : Nat) (rid : String)
    (rooms : List Room) :
    (np = "" →
      (buildPatch np mu).password_hash = none ∧
      (handleUpdateSettings np mu rid rooms).map Room.password_hash =
        rooms.map Room.password_hash) ∧
    (handleUpdateSettings np mu rid rooms).map
        (fun r => (r.id, r.name, r.owner_email, r.owner_id, r.created_at)) =
      rooms.map
        (fun r => (r.id, r.name, r.owner_email, r.owner_id, r.created_at)) := by
  constructor
  · intro h
    subst h
    refine ⟨rfl, ?_⟩
    induction rooms with
    | nil => rfl
    | cons r rs ih =>
      by_cases hr : r.id = rid <;>
        simp_all [handleUpdateSettings, hr, applyPatch, buildPatch]
  · induction rooms with
    | nil => rfl
    | cons r rs ih =>
      by_cases hr : r.id = rid <;>
        simp_all [handleUpdateSettings, hr, applyPatch, buildPatch]

/-- C9 (witness): the frame theorem at an empty new password on a concrete
catalog. -/
theorem C9_update_frame_witness :
    ((buildPatch "" 5).password_hash = none ∧
      (handleUpdateSettings "" 5 "a" [roomA]).map Room.password_hash =
        [roomA].map Room.password_hash) ∧
    (handleUpdateSettings "" 5 "a" [roomA]).map
        (fun r => (r.id, r.name, r.owner_email, r.owner_id, r.created_at)) =
      [roomA].map
        (fun r => (r.id, r.name, r.owner_email, r.owner_id, r.created_at)) :=
  ⟨(C9_update_frame "" 5 "a" [roomA]).1 rfl, (C9_update_frame "" 5 "a" [roomA]).2⟩

end SBChat
